import Mathlib

/-!
Shallow embedding of `download_LidarHD.py` (LidarHD-Download): a tile matcher,
a batch downloader, a PDAL pipeline-spec builder, a pipeline executor and the
orchestrating `main`.  Pure string and path manipulation is modelled on
`List Char`; the network, the filesystem and the external PDAL engine are
modelled as explicit inputs (fetch outcomes, engine outcomes) and explicit
outputs (files written, log lines, uncaught exceptions).
-/

namespace LidarHD

/-! ### String and path primitives (Python `os.path.join`, `str.replace`, `str.split`) -/

/-- Python `os.path.join(a, b)` on POSIX: if `b` is absolute it wins; otherwise
`a` and `b` are glued with a single slash (no extra slash when `a` already ends
in one, and an empty `a` contributes nothing). -/
def osPathJoin (a b : String) : String :=
  if b.toList.head? = some '/' then b
  else if a = "" then b
  else if a.toList.getLast? = some '/' then a ++ b
  else a ++ "/" ++ b

/-- Fuelled core of Python `str.replace` on character lists: scan left to right,
replacing each non-overlapping occurrence of `old` by `new` and continuing after
the consumed occurrence.  One unit of fuel is spent per consumed character, so
fuel equal to the length of the scanned list suffices. -/
def replaceFuel (old new : List Char) : Nat → List Char → List Char
  | 0, s => s
  | _, [] => []
  | fuel + 1, c :: cs =>
    if old ≠ [] ∧ old.isPrefixOf (c :: cs) then
      new ++ replaceFuel old new fuel (List.drop (old.length - 1) cs)
    else
      c :: replaceFuel old new fuel cs

/-- Python `s.replace(old, new)` for a non-empty pattern `old` (the only way the
source calls it: the pattern is always `".copc.laz"`). -/
def strReplace (s old new : String) : String :=
  (replaceFuel old.toList new.toList s.toList.length s.toList).asString

/-- Python `url.split("/")[-1]`: the final path segment, i.e. everything after
the last slash (the whole string when it has no slash). -/
def urlBasename (s : String) : String :=
  ((s.toList.reverse.takeWhile (fun c => c ≠ '/')).reverse).asString

/-! ### Tile Index Matcher (`download_lidar_data`, lines 33-36)

`gpd.sjoin(user_shp, mosaics, how="inner", op="intersects")` followed by
`intersection["url_telech"].unique()`.  Geometry is abstract: the spatial
predicate is an explicit boolean relation.  `pandas.unique` keeps the first
occurrence of each value, in order of appearance. -/

/-- Worker for `pdUnique`: drop values already seen, keep first occurrences. -/
def pdUniqueAux (seen : List String) : List String → List String
  | [] => []
  | x :: xs => if x ∈ seen then pdUniqueAux seen xs else x :: pdUniqueAux (x :: seen) xs

/-- `pandas.Series.unique`: unique values in order of first appearance. -/
def pdUnique (l : List String) : List String :=
  pdUniqueAux [] l

/-- The URL set built at lines 33-36: inner spatial join of the user geometries
against the tile catalog (each catalog row is a footprint geometry paired with
its `url_telech` string), then deduplication of the URL column. -/
def matchUrls {α : Type} (inter : α → α → Bool) (user : List α)
    (catalog : List (α × String)) : List String :=
  pdUnique ((user.map (fun g => (catalog.filter (fun t => inter g t.1)).map Prod.snd)).flatten)

/-! ### Batch Downloader (`download_lidar_data`, lines 38-55) -/

/-- Outcome of one `requests.get(url)`: either a response carrying a status
code and a body, or an exception raised by the fetch itself (transport error). -/
inductive FetchOutcome where
  | response (status : Nat) (content : String)
  | raises (msg : String)
deriving DecidableEq

/-- The fetch delivered a 200 response. -/
def fetchOk (fetch : String → FetchOutcome) (u : String) : Bool :=
  match fetch u with
  | FetchOutcome.response 200 _ => true
  | _ => false

/-- The fetch raised a transport exception. -/
def fetchRaises (fetch : String → FetchOutcome) (u : String) : Bool :=
  match fetch u with
  | FetchOutcome.raises _ => true
  | _ => false

/-- Body of a response (dummy for the raising case, which writes nothing). -/
def respContent : FetchOutcome → String
  | FetchOutcome.response _ content => content
  | FetchOutcome.raises _ => ""

/-- Observable state threaded through the download loop: the `output_files`
accumulator, the files fully written to disk (path and content), and the lines
printed so far. -/
structure DlState where
  outputFiles : List String
  written : List (String × String)
  log : List String
deriving DecidableEq

/-- One iteration of the loop at lines 40-53 for one `url`.  `requests.get`
runs first; a raised exception propagates (`Except.error`) before anything is
printed or written.  Otherwise the verbose-guarded notice is printed, and on
status 200 the body is written to `output_path/basename(url)` and the basename
is appended to `output_files`; any other status only prints the failure
notice. -/
def downloadStep (fetch : String → FetchOutcome) (verbose : Nat) (outputPath : String)
    (st : DlState) (url : String) : Except DlState DlState :=
  match fetch url with
  | FetchOutcome.raises _ => Except.error st
  | FetchOutcome.response status content =>
    let log1 := st.log ++ (if verbose = 1 then ["[INFO] Downloading file from: " ++ url] else [])
    if status = 200 then
      let filename := urlBasename url
      Except.ok
        { outputFiles := st.outputFiles ++ [filename]
          written := st.written ++ [(osPathJoin outputPath filename, content)]
          log := log1 ++ (if verbose = 1 then ["[INFO] Download done for file: " ++ filename] else []) }
    else
      Except.ok { st with log := log1 ++ (if verbose = 1 then ["[INFO] Download failed for file: " ++ url] else []) }

/-- The `for url in urls` loop: an uncaught exception from a step aborts the
remaining iterations and propagates the state reached so far. -/
def downloadLoop (fetch : String → FetchOutcome) (verbose : Nat) (outputPath : String) :
    List String → DlState → Except DlState DlState
  | [], st => Except.ok st
  | url :: urls, st =>
    match downloadStep fetch verbose outputPath st url with
    | Except.error st1 => Except.error st1
    | Except.ok st1 => downloadLoop fetch verbose outputPath urls st1

/-- The download phase of `download_lidar_data` run over an already matched URL
list, starting from the empty state (`output_files = []`, nothing written,
nothing printed).  `Except.ok` is the normal return of `output_files`;
`Except.error` is an exception escaping the function. -/
def download_lidar_data (fetch : String → FetchOutcome) (verbose : Nat)
    (outputPath : String) (urls : List String) : Except DlState DlState :=
  downloadLoop fetch verbose outputPath urls ⟨[], [], []⟩

/-- Log lines produced by one non-raising iteration for `url`. -/
def stepLog (fetch : String → FetchOutcome) (verbose : Nat) (url : String) : List String :=
  match fetch url with
  | FetchOutcome.raises _ => []
  | FetchOutcome.response status _ =>
    (if verbose = 1 then ["[INFO] Downloading file from: " ++ url] else []) ++
    (if status = 200 then
      (if verbose = 1 then ["[INFO] Download done for file: " ++ urlBasename url] else [])
     else
      (if verbose = 1 then ["[INFO] Download failed for file: " ++ url] else []))

/-- Closed form of the state after a run in which no fetch raises: the
successful URLs contribute, in iteration order, their basenames to
`output_files` and one written file each; failed statuses contribute only log
lines. -/
def cleanRunState (fetch : String → FetchOutcome) (verbose : Nat) (outputPath : String)
    (urls : List String) : DlState :=
  { outputFiles := (urls.filter (fun u => fetchOk fetch u)).map urlBasename
    written := (urls.filter (fun u => fetchOk fetch u)).map
      (fun u => (osPathJoin outputPath (urlBasename u), respContent (fetch u)))
    log := (urls.map (fun u => stepLog fetch verbose u)).flatten }

/-- Projection of a download result onto its externally observable part: the
returned list and the files written, forgetting the printed text. -/
def dlObservable : Except DlState DlState →
    Except (List String × List (String × String)) (List String × List (String × String))
  | Except.ok st => Except.ok (st.outputFiles, st.written)
  | Except.error st => Except.error (st.outputFiles, st.written)

/-! ### Pipeline Spec Builder (`point_cloud_to_tif`, lines 69-89) -/

/-- The `writers.gdal` stage object with its six fixed keys.  The resolution is
only ever carried verbatim from the caller into this record (no arithmetic is
performed on it), so it is modelled as a rational. -/
structure WriterStage where
  filename : String
  gdaldriver : String
  output_type : String
  resolution : ℚ
  data_type : String
  nodata : Int
deriving DecidableEq

/-- One element of the `pipeline` list: the bare input path string, a
`filters.expression` stage, or a `writers.gdal` stage. -/
inductive Stage where
  | input (path : String)
  | filterExpression (expression : String)
  | writerGdal (w : WriterStage)
deriving DecidableEq

/-- The `classes` argument of `point_cloud_to_tif` as `main` supplies it:
either the string sentinel `ALL`, or the caller-supplied list of class tokens
(Python interpolates each element with `str`, so tokens are kept as the strings
that interpolation would produce). -/
inductive ClassSel where
  | all
  | explicit (cs : List String)
deriving DecidableEq

/-- Python `sep.join(parts)`. -/
def pyJoin (sep : String) : List String → String
  | [] => ""
  | [x] => x
  | x :: y :: xs => x ++ sep ++ pyJoin sep (y :: xs)

/-- The pure spec-building part of `point_cloud_to_tif` (lines 69-89): start
from `[input_las, writer]` where the writer filename is
`os.path.join(output_directory, input_las.replace(".copc.laz", ".tif"))`; when
`classes` is not the `ALL` sentinel, insert at index 1 a `filters.expression`
stage whose expression is `" || ".join(f"Classification == {c}" ...)` over the
class tokens. -/
def buildPipeline (input_las output_directory : String) (classes : ClassSel)
    (resolution : ℚ) : List Stage :=
  let pipeline : List Stage :=
    [Stage.input input_las,
     Stage.writerGdal
       { filename := osPathJoin output_directory (strReplace input_las ".copc.laz" ".tif")
         gdaldriver := "GTiff"
         output_type := "idw"
         resolution := resolution
         data_type := "float32"
         nodata := -9999 }]
  match classes with
  | ClassSel.all => pipeline
  | ClassSel.explicit cs =>
    let expression := pyJoin " || " (cs.map (fun c => "Classification == " ++ c))
    pipeline.insertIdx 1 (Stage.filterExpression expression)

/-- Is this stage a `filters.expression` stage? -/
def isFilterStage : Stage → Bool
  | Stage.filterExpression _ => true
  | _ => false

/-- Filename of a `writers.gdal` stage, `none` for the other stage kinds. -/
def stageWriterFilename : Stage → Option String
  | Stage.writerGdal w => some w.filename
  | _ => none

/-- All raster output paths carried by the writer stages of a pipeline. -/
def writerFilenames (p : List Stage) : List String :=
  p.filterMap stageWriterFilename

/-- Modelled from the spec for comparison with the code: the output raster path
is the output directory joined with the basename of the input file, with the
point-cloud extension replaced by the raster extension. -/
def specRasterPath (outputDir inputFile : String) : String :=
  osPathJoin outputDir (strReplace (urlBasename inputFile) ".copc.laz" ".tif")

/-! ### Pipeline Executor (`point_cloud_to_tif`, lines 91-102) -/

/-- Outcome of the `pdal pipeline` subprocess invocation: either the engine ran
and returned an exit code, or it could not be launched at all (the `OSError`
family, e.g. `FileNotFoundError` when the binary is missing). -/
inductive EngineOutcome where
  | exitCode (code : Nat) (diag : String)
  | launchFailure (diag : String)
deriving DecidableEq

/-- The Python exceptions relevant to the `try` block at lines 97-102. -/
inductive PyExc where
  | calledProcessError (diag : String)
  | osError (diag : String)
deriving DecidableEq

/-- `subprocess.run(command, check=True, ...)`: returns normally on exit code
0, raises `CalledProcessError` on a non-zero exit code, raises `OSError` when
the process cannot be launched. -/
def subprocessRunCheck : EngineOutcome → Except PyExc Unit
  | EngineOutcome.exitCode 0 _ => Except.ok ()
  | EngineOutcome.exitCode (_ + 1) diag => Except.error (PyExc.calledProcessError diag)
  | EngineOutcome.launchFailure diag => Except.error (PyExc.osError diag)

/-- Observable outcome of the run/cleanup part of `point_cloud_to_tif`:
whether the transient pipeline-description file is still on disk afterwards,
the diagnostics printed, and the exception escaping the function, if any. -/
structure ExecResult where
  tempFileOnDisk : Bool
  log : List String
  uncaught : Option PyExc
deriving DecidableEq

/-- Lines 91-102: the pipeline description is serialized to a named temporary
file (created with `delete := False`, so it stays on disk); then
`subprocess.run` is wrapped in `try / except CalledProcessError / finally`.
Only `CalledProcessError` is caught (and reported); any other exception
escapes.  The `finally` clause removes the temporary file on every exit
path. -/
def executePipeline (outcome : EngineOutcome) : ExecResult :=
  let tryResult : List String × Option PyExc :=
    match subprocessRunCheck outcome with
    | Except.ok () => ([], none)
    | Except.error (PyExc.calledProcessError diag) =>
      (["Error running PDAL pipeline: " ++ diag], none)
    | Except.error e => ([], some e)
  { tempFileOnDisk := false
    log := tryResult.1
    uncaught := tryResult.2 }

/-- The rasterization loop of `main` (lines 119-120), driven by the engine
outcome of each successive `point_cloud_to_tif` call: an exception escaping one
call aborts the remaining iterations and propagates. -/
def rasterizeLoop : List EngineOutcome → List ExecResult × Option PyExc
  | [] => ([], none)
  | o :: os =>
    let r := executePipeline o
    match r.uncaught with
    | some e => ([r], some e)
    | none =>
      let rest := rasterizeLoop os
      (r :: rest.1, rest.2)

/-! ### Orchestrator (`main`, lines 105-121) -/

/-- Lines 113-117: the sentinel test `if "ALL" in args.classes` collapses the
whole selection to the `ALL` sentinel whenever the literal token appears
anywhere in the caller-supplied list; otherwise the list is passed through. -/
def selectClasses (cliClasses : List String) : ClassSel :=
  if "ALL" ∈ cliClasses then ClassSel.all else ClassSel.explicit cliClasses

/-- The spec built for one downloaded file at line 120:
`point_cloud_to_tif(os.path.join(args.output, file), args.output, classes, res)`. -/
def mainRasterSpec (output file : String) (classes : ClassSel) (res : ℚ) : List Stage :=
  buildPipeline (osPathJoin output file) output classes res

/-- A concrete fetch environment for the counterexamples and witnesses: one
URL suffers a transport error, every other URL answers 200. -/
def fetchMixed : String → FetchOutcome := fun u =>
  if u = "https://host/err.copc.laz" then FetchOutcome.raises "connection reset"
  else FetchOutcome.response 200 "payload"

/-- A concrete fetch environment in which every URL answers 200. -/
def fetchAll : String → FetchOutcome := fun _ => FetchOutcome.response 200 "points"

/-! ### Helper lemmas about the download loop and deduplication -/

/-- A step on a URL whose fetch does not raise returns normally, extending the
state by the closed-form contribution of that URL. -/
lemma downloadStep_ok (fetch : String → FetchOutcome) (verbose : Nat) (out : String)
    (st : DlState) (u : String) (h : fetchRaises fetch u = false) :
    downloadStep fetch verbose out st u = Except.ok
      { outputFiles := st.outputFiles ++ (if fetchOk fetch u then [urlBasename u] else [])
        written := st.written ++
          (if fetchOk fetch u then [(osPathJoin out (urlBasename u), respContent (fetch u))] else [])
        log := st.log ++ stepLog fetch verbose u } := by
  cases hf : fetch u with
  | raises m => simp [fetchRaises, hf] at h
  | response s c =>
    by_cases hs : s = 200
    · subst hs
      simp [downloadStep, hf, fetchOk, stepLog, respContent, List.append_assoc]
    · simp [downloadStep, hf, fetchOk, stepLog, respContent, hs, List.append_assoc]

/-- Closed form of the loop on a raise-free URL list, from any starting state. -/
lemma downloadLoop_clean (fetch : String → FetchOutcome) (verbose : Nat) (out : String) :
    ∀ (urls : List String) (st : DlState), (∀ u ∈ urls, fetchRaises fetch u = false) →
      downloadLoop fetch verbose out urls st = Except.ok
        { outputFiles := st.outputFiles ++ (cleanRunState fetch verbose out urls).outputFiles
          written := st.written ++ (cleanRunState fetch verbose out urls).written
          log := st.log ++ (cleanRunState fetch verbose out urls).log } := by
  intro urls
  induction urls with
  | nil => intro st h; simp [downloadLoop, cleanRunState]
  | cons u us ih =>
    intro st h
    have hu : fetchRaises fetch u = false := h u (by simp)
    rw [downloadLoop, downloadStep_ok fetch verbose out st u hu]
    dsimp only
    rw [ih _ (fun v hv => h v (by simp [hv]))]
    by_cases hk : fetchOk fetch u
    · simp [cleanRunState, List.filter_cons, hk, List.append_assoc]
    · simp [cleanRunState, List.filter_cons, hk, List.append_assoc]

/-- The loop on a concatenation runs the first part and, only when it returned
normally, continues with the second from the reached state. -/
lemma downloadLoop_append (fetch : String → FetchOutcome) (verbose : Nat) (out : String) :
    ∀ (l1 l2 : List String) (st : DlState),
      downloadLoop fetch verbose out (l1 ++ l2) st =
        (match downloadLoop fetch verbose out l1 st with
         | Except.error st1 => Except.error st1
         | Except.ok st1 => downloadLoop fetch verbose out l2 st1) := by
  intro l1
  induction l1 with
  | nil => intro l2 st; simp [downloadLoop]
  | cons u us ih =>
    intro l2 st
    rw [List.cons_append, downloadLoop, downloadLoop]
    cases downloadStep fetch verbose out st u with
    | error st1 => rfl
    | ok st1 => exact ih l2 st1

/-- The deduplication worker never emits a value from `seen` and its output has
no duplicates. -/
lemma pdUniqueAux_nodup : ∀ (l seen : List String),
    (pdUniqueAux seen l).Nodup ∧ ∀ x ∈ pdUniqueAux seen l, x ∉ seen := by
  intro l
  induction l with
  | nil => intro seen; simp [pdUniqueAux]
  | cons x xs ih =>
    intro seen
    by_cases hx : x ∈ seen
    · refine ⟨?_, ?_⟩
      · simpa [pdUniqueAux, hx] using (ih seen).1
      · intro y hy
        rw [pdUniqueAux, if_pos hx] at hy
        exact (ih seen).2 y hy
    · have h2 := (ih (x :: seen)).2
      refine ⟨?_, ?_⟩
      · rw [pdUniqueAux, if_neg hx]
        rw [List.nodup_cons]
        refine ⟨?_, (ih (x :: seen)).1⟩
        intro hmem
        exact (h2 x hmem) (by simp)
      · intro y hy
        rw [pdUniqueAux, if_neg hx] at hy
        rw [List.mem_cons] at hy
        cases hy with
        | inl he => subst he; exact hx
        | inr hm =>
          intro hseen
          exact (h2 y hm) (by simp [hseen])

/-- The dedup pass returns a list with no duplicates. -/
lemma pdUnique_nodup (l : List String) : (pdUnique l).Nodup :=
  (pdUniqueAux_nodup l []).1

/-- The verbose flag steers only the log: two loop runs with the same fetch
environment and path, from states agreeing outside the log, agree outside the
log. -/
lemma downloadLoop_observable (fetch : String → FetchOutcome) (out : String)
    (v0 v1 : Nat) :
    ∀ (urls : List String) (st0 st1 : DlState),
      st0.outputFiles = st1.outputFiles → st0.written = st1.written →
      dlObservable (downloadLoop fetch v0 out urls st0) =
        dlObservable (downloadLoop fetch v1 out urls st1) := by
  intro urls
  induction urls with
  | nil => intro st0 st1 h1 h2; simp [downloadLoop, dlObservable, h1, h2]
  | cons u us ih =>
    intro st0 st1 h1 h2
    cases hf : fetch u with
    | raises m =>
      rw [downloadLoop, downloadLoop]
      simp [downloadStep, hf, dlObservable, h1, h2]
    | response s c =>
      have hu : fetchRaises fetch u = false := by simp [fetchRaises, hf]
      rw [downloadLoop, downloadLoop, downloadStep_ok fetch v0 out st0 u hu,
        downloadStep_ok fetch v1 out st1 u hu]
      dsimp only
      exact ih _ _ (by simp [h1]) (by simp [h2])

/-! ### The claims -/

/-- Claim C1, amended: the raster path placed in the single writer stage of the
spec built by `main` for a downloaded file equals the output directory joined
with the FULL input path (itself already `outputDir/file`) after replacing
`.copc.laz` by `.tif` — not joined with the basename.  For a relative output
directory the directory component is therefore doubled; the two coincide when
the output directory is absolute, because `os.path.join` discards its first
argument before an absolute second argument. -/
theorem c1_raster_path_amended :
    ∀ (output file : String) (classes : ClassSel) (res : ℚ),
      writerFilenames (mainRasterSpec output file classes res) =
        [osPathJoin output (strReplace (osPathJoin output file) ".copc.laz" ".tif")] := by
  intro o f classes r
  cases classes <;> rfl

/-- Claim C1, counterexample to the claim as stated: with relative output
directory `out` and downloaded file `tile.copc.laz`, the writer stage carries
`out/out/tile.tif`, while the spec formula (output directory joined with the
basename, extension replaced) gives `out/tile.tif`. -/
theorem c1_raster_path_counterexample :
    writerFilenames (mainRasterSpec "out" "tile.copc.laz" ClassSel.all 1) = ["out/out/tile.tif"] ∧
    specRasterPath "out" (osPathJoin "out" "tile.copc.laz") = "out/tile.tif" ∧
    writerFilenames (mainRasterSpec "out" "tile.copc.laz" ClassSel.all 1) ≠
      [specRasterPath "out" (osPathJoin "out" "tile.copc.laz")] := by
  refine ⟨rfl, rfl, ?_⟩
  decide

/-- Claim C2, counterexample to the claim as stated: a transport error on the
first URL is not recovered — the loop aborts with an exception in the empty
state, so the second URL (whose fetch would have succeeded) is never fetched
and no list of successes is returned. -/
theorem c2_transport_error_counterexample :
    download_lidar_data fetchMixed 1 "out"
        ["https://host/err.copc.laz", "https://host/b.copc.laz"] =
      Except.error ⟨[], [], []⟩ ∧
    fetchOk fetchMixed "https://host/b.copc.laz" = true := by
  refine ⟨rfl, by decide⟩

/-- Claim C2, amended: a transport error (an exception raised by the fetch
itself) while fetching one URL is NOT recovered locally: the exception
propagates out of the download loop in the state reached so far, so no file is
written for that URL, the remaining URLs are never fetched, and no list of
successes is returned.  Only non-success statuses are recovered locally. -/
theorem c2_transport_error_amended :
    ∀ (fetch : String → FetchOutcome) (verbose : Nat) (out : String)
      (urls1 : List String) (u : String) (urls2 : List String) (msg : String),
      urls1.all (fun v => !fetchRaises fetch v) = true →
      fetch u = FetchOutcome.raises msg →
      download_lidar_data fetch verbose out (urls1 ++ u :: urls2) =
        Except.error (cleanRunState fetch verbose out urls1) := by
  intro fetch verbose out urls1 u urls2 msg h1 h2
  have h1' : ∀ v ∈ urls1, fetchRaises fetch v = false := by
    intro v hv
    simpa using (List.all_eq_true.mp h1) v hv
  rw [download_lidar_data, downloadLoop_append,
    downloadLoop_clean fetch verbose out urls1 _ h1']
  dsimp only
  rw [downloadLoop, downloadStep]
  simp only [h2]
  rfl

/-- Claim C2, witness for the amended theorem at a concrete run: one clean URL,
then a raising URL, then a URL that is never reached. -/
theorem c2_transport_error_witness :
    (["https://host/b.copc.laz"].all (fun v => !fetchRaises fetchMixed v) = true) ∧
    fetchMixed "https://host/err.copc.laz" = FetchOutcome.raises "connection reset" ∧
    download_lidar_data fetchMixed 1 "out"
        (["https://host/b.copc.laz"] ++
          "https://host/err.copc.laz" :: ["https://host/later.copc.laz"]) =
      Except.error (cleanRunState fetchMixed 1 "out" ["https://host/b.copc.laz"]) :=
  ⟨by decide, by decide,
   c2_transport_error_amended fetchMixed 1 "out" ["https://host/b.copc.laz"]
     "https://host/err.copc.laz" ["https://host/later.copc.laz"] "connection reset"
     (by decide) (by decide)⟩

/-- Claim C3, amended: a non-zero exit status of the engine is recovered
locally — the `CalledProcessError` is caught, a diagnostic is printed, no
exception escapes and the per-file loop continues — but when the engine cannot
be launched at all the raised `OSError` is NOT caught by the
`except CalledProcessError` clause: it escapes `point_cloud_to_tif` and aborts
the rasterization loop. -/
theorem c3_engine_failure_amended :
    ∀ (code : Nat) (diag : String) (rest : List EngineOutcome),
      (executePipeline (EngineOutcome.exitCode (code + 1) diag)).uncaught = none ∧
      (executePipeline (EngineOutcome.exitCode (code + 1) diag)).log =
        ["Error running PDAL pipeline: " ++ diag] ∧
      rasterizeLoop (EngineOutcome.exitCode (code + 1) diag :: rest) =
        (executePipeline (EngineOutcome.exitCode (code + 1) diag) :: (rasterizeLoop rest).1,
         (rasterizeLoop rest).2) ∧
      (executePipeline (EngineOutcome.launchFailure diag)).uncaught =
        some (PyExc.osError diag) ∧
      rasterizeLoop (EngineOutcome.launchFailure diag :: rest) =
        ([executePipeline (EngineOutcome.launchFailure diag)], some (PyExc.osError diag)) := by
  intro code diag rest
  exact ⟨rfl, rfl, rfl, rfl, rfl⟩

/-- Claim C3, counterexample to the claim as stated: when the engine cannot be
launched, an exception escapes `execute`, and of two downloaded files only the
first is processed — the loop does not proceed to the next file. -/
theorem c3_engine_failure_counterexample :
    (executePipeline (EngineOutcome.launchFailure "pdal: No such file or directory")).uncaught ≠
      none ∧
    (rasterizeLoop [EngineOutcome.launchFailure "pdal: No such file or directory",
        EngineOutcome.exitCode 0 ""]).1.length = 1 := by
  refine ⟨by decide, by decide⟩

/-- Claim C4: after `execute` returns — engine success, non-zero exit, or a
launch failure whose exception escapes — the transient pipeline-description
file no longer exists on disk, because the `finally` clause removes it on every
exit path. -/
theorem c4_transient_description_removed :
    ∀ outcome : EngineOutcome, (executePipeline outcome).tempFileOnDisk = false := by
  intro o
  rfl

/-- Claim C5: building with explicit classes 2 and 3 and resolution 1.0 yields
exactly the three stages [input, filter, writer] in order, with filter
expression `Classification == 2 || Classification == 3` and resolution 1.0 in
the writer; a single-element selector degenerates to one equality test with no
dangling operator. -/
theorem c5_build_explicit_classes :
    ∀ (input_las output_directory : String) (res : ℚ),
      (buildPipeline input_las output_directory
          (ClassSel.explicit (([2, 3] : List Int).map (fun c => toString c))) 1 =
        [Stage.input input_las,
         Stage.filterExpression "Classification == 2 || Classification == 3",
         Stage.writerGdal
           { filename := osPathJoin output_directory (strReplace input_las ".copc.laz" ".tif")
             gdaldriver := "GTiff"
             output_type := "idw"
             resolution := 1
             data_type := "float32"
             nodata := -9999 }]) ∧
      buildPipeline input_las output_directory (ClassSel.explicit [toString (2 : Int)]) res =
        [Stage.input input_las,
         Stage.filterExpression "Classification == 2",
         Stage.writerGdal
           { filename := osPathJoin output_directory (strReplace input_las ".copc.laz" ".tif")
             gdaldriver := "GTiff"
             output_type := "idw"
             resolution := res
             data_type := "float32"
             nodata := -9999 }] := by
  intro i o r
  exact ⟨rfl, rfl⟩

/-- Claim C6: building with the ALL sentinel and resolution 0.5 yields exactly
the two stages [input, writer], and no filter stage of any form is present. -/
theorem c6_build_all_sentinel :
    ∀ (input_las output_directory : String),
      (buildPipeline input_las output_directory ClassSel.all (1 / 2) =
        [Stage.input input_las,
         Stage.writerGdal
           { filename := osPathJoin output_directory (strReplace input_las ".copc.laz" ".tif")
             gdaldriver := "GTiff"
             output_type := "idw"
             resolution := 1 / 2
             data_type := "float32"
             nodata := -9999 }]) ∧
      (buildPipeline input_las output_directory ClassSel.all (1 / 2)).filter isFilterStage = [] := by
  intro i o
  exact ⟨rfl, rfl⟩

/-- Claim C7: when no fetch raises, the download returns normally; the returned
list is exactly the basenames of the URLs whose fetch answered 200, in
iteration order; the files written are exactly one per such URL (so a URL with
a failing status leaves no file on disk); and when every fetch succeeds the
returned list has one entry per URL. -/
theorem c7_download_success_subset :
    ∀ (fetch : String → FetchOutcome) (verbose : Nat) (out : String) (urls : List String),
      urls.all (fun u => !fetchRaises fetch u) = true →
      (download_lidar_data fetch verbose out urls =
        Except.ok (cleanRunState fetch verbose out urls)) ∧
      (cleanRunState fetch verbose out urls).outputFiles =
        (urls.filter (fun u => fetchOk fetch u)).map urlBasename ∧
      (cleanRunState fetch verbose out urls).written =
        (urls.filter (fun u => fetchOk fetch u)).map
          (fun u => (osPathJoin out (urlBasename u), respContent (fetch u))) ∧
      (urls.all (fun u => fetchOk fetch u) = true →
        (cleanRunState fetch verbose out urls).outputFiles.length = urls.length) := by
  intro fetch verbose out urls h
  have h' : ∀ u ∈ urls, fetchRaises fetch u = false := by
    intro u hu
    simpa using (List.all_eq_true.mp h) u hu
  refine ⟨?_, rfl, rfl, ?_⟩
  · rw [download_lidar_data, downloadLoop_clean fetch verbose out urls _ h']
    rfl
  · intro hall
    have hfix : urls.filter (fun u => fetchOk fetch u) = urls := by
      rw [List.filter_eq_self]
      intro u hu
      exact (List.all_eq_true.mp hall) u hu
    show ((urls.filter (fun u => fetchOk fetch u)).map urlBasename).length = urls.length
    rw [hfix, List.length_map]

/-- Claim C7, witness at a concrete all-success run of two URLs. -/
theorem c7_download_success_witness :
    (["https://host/t1.copc.laz", "https://host/t2.copc.laz"].all
        (fun u => !fetchRaises fetchAll u) = true) ∧
    (["https://host/t1.copc.laz", "https://host/t2.copc.laz"].all
        (fun u => fetchOk fetchAll u) = true) ∧
    (download_lidar_data fetchAll 1 "out"
        ["https://host/t1.copc.laz", "https://host/t2.copc.laz"] =
      Except.ok (cleanRunState fetchAll 1 "out"
        ["https://host/t1.copc.laz", "https://host/t2.copc.laz"])) ∧
    (cleanRunState fetchAll 1 "out"
        ["https://host/t1.copc.laz", "https://host/t2.copc.laz"]).outputFiles.length =
      (["https://host/t1.copc.laz", "https://host/t2.copc.laz"] : List String).length :=
  ⟨by decide, by decide,
   (c7_download_success_subset fetchAll 1 "out"
     ["https://host/t1.copc.laz", "https://host/t2.copc.laz"] (by decide)).1,
   (c7_download_success_subset fetchAll 1 "out"
     ["https://host/t1.copc.laz", "https://host/t2.copc.laz"] (by decide)).2.2.2 (by decide)⟩

/-- Claim C8: the matcher is a pure function of its inputs (same region and
catalog always give the same output), its output contains each URL at most
once even when several catalog rows reference the same URL, and an empty
region or an empty catalog yields the empty result rather than an error. -/
theorem c8_match_dedup_and_empty :
    ∀ (α : Type) (inter : α → α → Bool) (user : List α) (catalog : List (α × String)),
      matchUrls inter user catalog = matchUrls inter user catalog ∧
      (matchUrls inter user catalog).Nodup ∧
      matchUrls inter ([] : List α) catalog = [] ∧
      matchUrls inter user ([] : List (α × String)) = [] := by
  intro α inter user catalog
  refine ⟨rfl, pdUnique_nodup _, rfl, ?_⟩
  have h : (user.map
      (fun g => ((([] : List (α × String)).filter (fun t => inter g t.1)).map Prod.snd))).flatten =
      ([] : List String) := by
    induction user with
    | nil => rfl
    | cons g gs ih => simp
  rw [matchUrls, h]
  rfl

/-- Claim C9: the list returned by the downloader and the files it writes are
identical whether verbose is 0 or 1 — the flag influences only the printed
text, both on normal return and when an exception escapes. -/
theorem c9_verbose_noninterference :
    ∀ (fetch : String → FetchOutcome) (out : String) (urls : List String),
      dlObservable (download_lidar_data fetch 0 out urls) =
        dlObservable (download_lidar_data fetch 1 out urls) := by
  intro fetch out urls
  exact downloadLoop_observable fetch out 0 1 urls ⟨[], [], []⟩ ⟨[], [], []⟩ rfl rfl

/-- Claim C10: the ALL sentinel is detected by membership — whenever the
literal token ALL appears anywhere in the caller-supplied classification list,
even mixed with integer codes, the built spec is exactly [input, writer] and
contains no filter stage. -/
theorem c10_sentinel_membership :
    ∀ (cliClasses : List String) (output file : String) (res : ℚ),
      "ALL" ∈ cliClasses →
      mainRasterSpec output file (selectClasses cliClasses) res =
        [Stage.input (osPathJoin output file),
         Stage.writerGdal
           { filename := osPathJoin output (strReplace (osPathJoin output file) ".copc.laz" ".tif")
             gdaldriver := "GTiff"
             output_type := "idw"
             resolution := res
             data_type := "float32"
             nodata := -9999 }] ∧
      (mainRasterSpec output file (selectClasses cliClasses) res).filter isFilterStage = [] := by
  intro cli o f r h
  have hs : selectClasses cli = ClassSel.all := by simp [selectClasses, h]
  rw [mainRasterSpec, hs]
  exact ⟨rfl, rfl⟩

/-- Claim C10, witness at the mixed list of the integer token 2 and the ALL
sentinel. -/
theorem c10_sentinel_membership_witness :
    ("ALL" ∈ ["2", "ALL"]) ∧
    (mainRasterSpec "out" "tile.copc.laz" (selectClasses ["2", "ALL"]) 1 =
      [Stage.input (osPathJoin "out" "tile.copc.laz"),
       Stage.writerGdal
         { filename := osPathJoin "out"
             (strReplace (osPathJoin "out" "tile.copc.laz") ".copc.laz" ".tif")
           gdaldriver := "GTiff"
           output_type := "idw"
           resolution := 1
           data_type := "float32"
           nodata := -9999 }]) ∧
    (mainRasterSpec "out" "tile.copc.laz" (selectClasses ["2", "ALL"]) 1).filter isFilterStage =
      [] :=
  ⟨by decide,
   (c10_sentinel_membership ["2", "ALL"] "out" "tile.copc.laz" 1 (by decide)).1,
   (c10_sentinel_membership ["2", "ALL"] "out" "tile.copc.laz" 1 (by decide)).2⟩

end LidarHD
